import Mathlib

/-!
Verification of the mcpd plugins SDK for Go: a shallow embedding of the
`BasePlugin` default implementation (pkg/plugins/v1/base.go), the `Serve`
startup helper (pkg/plugins/v1/plugins/server.go), and the host-side
mediation pipeline and graceful-shutdown contracts described by the spec.
-/

namespace Mcpd

/-- Flow enumeration: the mediation points a plugin can participate in
(proto enum with Request and Response flows). -/
inductive Flow where
  | Request
  | Response
deriving DecidableEq

/-- Metadata message: {name, version, description}, all Go strings
(zero value is the empty string). -/
structure Metadata where
  Name : String
  Version : String
  Description : String
deriving DecidableEq

/-- Capabilities message: the list of flows the plugin declares
(zero value is the empty list). -/
structure Capabilities where
  Flows : List Flow
deriving DecidableEq

/-- PluginConfig: opaque key-value configuration delivered once via
`Configure`. -/
structure PluginConfig where
  Config : List (String × String)
deriving DecidableEq

/-- Context mirrors Go's `context.Context` argument, which every
`BasePlugin` method receives and ignores. -/
structure Context where
deriving DecidableEq

/-- PbEmpty mirrors `emptypb.Empty`, the empty protobuf message used as
the unit result of lifecycle and probe calls. -/
structure PbEmpty where
deriving DecidableEq

/-- HTTPRequest message: ordered header multimap and byte-sequence body. -/
structure HTTPRequest where
  Headers : List (String × String)
  Body : List Nat
deriving DecidableEq

/-- HTTPResponse message, doubling as the Verdict: `Continue` flag,
status code (sentinel 0 = unset), headers and body. -/
structure HTTPResponse where
  Continue : Bool
  StatusCode : Int
  Headers : List (String × String)
  Body : List Nat
deriving DecidableEq

/-- BasePlugin (base.go): embeds only `UnimplementedPluginServer`, which
carries no fields, so the struct holds no state at all. -/
structure BasePlugin where
deriving DecidableEq

/-- Configure is a no-op by default: returns `(&emptypb.Empty{}, nil)`. -/
def BasePlugin.Configure (_b : BasePlugin) (_ctx : Context) (_cfg : PluginConfig) :
    Except String PbEmpty :=
  .ok {}

/-- Stop is a no-op by default: returns `(&emptypb.Empty{}, nil)`. -/
def BasePlugin.Stop (_b : BasePlugin) (_ctx : Context) (_e : PbEmpty) :
    Except String PbEmpty :=
  .ok {}

/-- GetMetadata returns empty metadata by default: `(&Metadata{}, nil)`. -/
def BasePlugin.GetMetadata (_b : BasePlugin) (_ctx : Context) (_e : PbEmpty) :
    Except String Metadata :=
  .ok { Name := "", Version := "", Description := "" }

/-- GetCapabilities returns no flows by default: `(&Capabilities{}, nil)`. -/
def BasePlugin.GetCapabilities (_b : BasePlugin) (_ctx : Context) (_e : PbEmpty) :
    Except String Capabilities :=
  .ok { Flows := [] }

/-- CheckHealth returns OK by default: `(&emptypb.Empty{}, nil)`. -/
def BasePlugin.CheckHealth (_b : BasePlugin) (_ctx : Context) (_e : PbEmpty) :
    Except String PbEmpty :=
  .ok {}

/-- CheckReady returns OK by default: `(&emptypb.Empty{}, nil)`. -/
def BasePlugin.CheckReady (_b : BasePlugin) (_ctx : Context) (_e : PbEmpty) :
    Except String PbEmpty :=
  .ok {}

/-- HandleRequest passes the request through unchanged with
`Continue = true` and `StatusCode = 0` (the unset sentinel). -/
def BasePlugin.HandleRequest (_b : BasePlugin) (_ctx : Context) (req : HTTPRequest) :
    Except String HTTPResponse :=
  .ok { Continue := true, StatusCode := 0, Headers := req.Headers, Body := req.Body }

/-- HandleResponse passes the response through unchanged with
`Continue = true`. -/
def BasePlugin.HandleResponse (_b : BasePlugin) (_ctx : Context) (resp : HTTPResponse) :
    Except String HTTPResponse :=
  .ok { Continue := true, StatusCode := resp.StatusCode, Headers := resp.Headers,
        Body := resp.Body }

/-- Claim C1: the default plugin pass-through is identity-preserving.
`HandleRequest r` returns `Continue = true` with headers and body equal
to `r`'s and status code left at the unset sentinel 0; `HandleResponse s`
returns `Continue = true` with status code, headers and body equal to
`s`'s. -/
theorem basePlugin_passthrough_identity
    (b : BasePlugin) (ctx : Context) (r : HTTPRequest) (s : HTTPResponse) :
    b.HandleRequest ctx r =
      .ok { Continue := true, StatusCode := 0, Headers := r.Headers, Body := r.Body }
    ∧ b.HandleResponse ctx s =
      .ok { Continue := true, StatusCode := s.StatusCode, Headers := s.Headers,
            Body := s.Body } :=
  ⟨rfl, rfl⟩

/-- Call: one invocation of a `BasePlugin` method together with its
argument, used to study sequences of calls against the plugin. -/
inductive Call where
  | configure (cfg : PluginConfig)
  | stop (e : PbEmpty)
  | getMetadata (e : PbEmpty)
  | getCapabilities (e : PbEmpty)
  | checkHealth (e : PbEmpty)
  | checkReady (e : PbEmpty)
  | handleRequest (req : HTTPRequest)
  | handleResponse (resp : HTTPResponse)
deriving DecidableEq

/-- Ret: the typed result of one `BasePlugin` method invocation. -/
inductive Ret where
  | emptyRet (e : Except String PbEmpty)
  | metadataRet (m : Except String Metadata)
  | capabilitiesRet (c : Except String Capabilities)
  | verdictRet (v : Except String HTTPResponse)

/-- Dispatch one call against the plugin, returning the (possibly
updated) plugin value together with the result. Every `BasePlugin`
method has a pointer receiver but the struct has no fields and no method
writes through the receiver, so the plugin value is returned unchanged,
exactly as in base.go. -/
def BasePlugin.stepCall (b : BasePlugin) (ctx : Context) : Call → BasePlugin × Ret
  | .configure cfg => (b, .emptyRet (b.Configure ctx cfg))
  | .stop e => (b, .emptyRet (b.Stop ctx e))
  | .getMetadata e => (b, .metadataRet (b.GetMetadata ctx e))
  | .getCapabilities e => (b, .capabilitiesRet (b.GetCapabilities ctx e))
  | .checkHealth e => (b, .emptyRet (b.CheckHealth ctx e))
  | .checkReady e => (b, .emptyRet (b.CheckReady ctx e))
  | .handleRequest req => (b, .verdictRet (b.HandleRequest ctx req))
  | .handleResponse resp => (b, .verdictRet (b.HandleResponse ctx resp))

/-- Run a sequence of calls against the plugin, threading the plugin
state through and collecting the results in order. -/
def BasePlugin.runCalls (b : BasePlugin) (ctx : Context) : List Call → List Ret
  | [] => []
  | c :: cs =>
    let s := b.stepCall ctx c
    s.2 :: s.1.runCalls ctx cs

theorem BasePlugin.stepCall_fst (b : BasePlugin) (ctx : Context) (c : Call) :
    (b.stepCall ctx c).1 = b := by
  cases c <;> rfl

theorem BasePlugin.runCalls_eq_map (b : BasePlugin) (ctx : Context) (cs : List Call) :
    b.runCalls ctx cs = cs.map fun c => (b.stepCall ctx c).2 := by
  induction cs generalizing b with
  | nil => rfl
  | cons c cs ih =>
    simp only [BasePlugin.runCalls, List.map_cons]
    rw [BasePlugin.stepCall_fst]
    exact congrArg _ (ih b)

/-- Claim C3: the default lifecycle and probe operations `Configure`,
`Stop`, `CheckHealth` and `CheckReady` return success (nil error with
the empty result) for every input, and dispatching any call leaves the
plugin state unchanged. -/
theorem basePlugin_lifecycle_total
    (b : BasePlugin) (ctx : Context) (cfg : PluginConfig) (e : PbEmpty) :
    b.Configure ctx cfg = .ok {}
    ∧ b.Stop ctx e = .ok {}
    ∧ b.CheckHealth ctx e = .ok {}
    ∧ b.CheckReady ctx e = .ok {}
    ∧ ∀ c : Call, (b.stepCall ctx c).1 = b :=
  ⟨rfl, rfl, rfl, rfl, fun c => BasePlugin.stepCall_fst b ctx c⟩

/-- Claim C4: on every call `GetMetadata` returns the zero-value
Metadata (empty name, version and description) and `GetCapabilities`
returns a Capabilities declaring no flows; the results are the same
fresh zero value on every call, independent of the context, so no call
can mutate a previously returned value. -/
theorem basePlugin_empty_defaults (b : BasePlugin) (ctx ctx2 : Context) (e e2 : PbEmpty) :
    b.GetMetadata ctx e = .ok { Name := "", Version := "", Description := "" }
    ∧ b.GetCapabilities ctx e = .ok { Flows := [] }
    ∧ b.GetMetadata ctx e = b.GetMetadata ctx2 e2
    ∧ b.GetCapabilities ctx e = b.GetCapabilities ctx2 e2 :=
  ⟨rfl, rfl, rfl, rfl⟩

/-- Claim C5: `GetMetadata` and `GetCapabilities` are idempotent —
running either call twice in a row with no intervening `Configure`
yields two identical results — and neither call has a side effect on
the plugin state. -/
theorem basePlugin_idempotent (b : BasePlugin) (ctx : Context) (e : PbEmpty) :
    b.runCalls ctx [.getMetadata e, .getMetadata e] =
      [.metadataRet (b.GetMetadata ctx e), .metadataRet (b.GetMetadata ctx e)]
    ∧ b.runCalls ctx [.getCapabilities e, .getCapabilities e] =
      [.capabilitiesRet (b.GetCapabilities ctx e), .capabilitiesRet (b.GetCapabilities ctx e)]
    ∧ (b.stepCall ctx (.getMetadata e)).1 = b
    ∧ (b.stepCall ctx (.getCapabilities e)).1 = b :=
  ⟨rfl, rfl, rfl, rfl⟩

/-- Claim C9: every remaining `BasePlugin` operation is total and never
fails — `GetMetadata`, `GetCapabilities`, `HandleRequest` and
`HandleResponse` return a non-nil result with a nil error on every
input. -/
theorem basePlugin_all_ops_total
    (b : BasePlugin) (ctx : Context) (e : PbEmpty) (r : HTTPRequest) (s : HTTPResponse) :
    (∃ m, b.GetMetadata ctx e = .ok m)
    ∧ (∃ c, b.GetCapabilities ctx e = .ok c)
    ∧ (∃ v, b.HandleRequest ctx r = .ok v)
    ∧ (∃ v, b.HandleResponse ctx s = .ok v) :=
  ⟨⟨_, rfl⟩, ⟨_, rfl⟩, ⟨_, rfl⟩, ⟨_, rfl⟩⟩

/-- Claim C10: `BasePlugin` is stateless and deterministic. The struct
has no fields, so any two plugin values are equal; every dispatched call
leaves the state unchanged; and any two calls with equal inputs return
equal results wherever they occur in any two call sequences. -/
theorem basePlugin_stateless_deterministic
    (b b2 : BasePlugin) (ctx ctx2 : Context) (cs cs2 : List Call)
    (i j : Nat) (c : Call)
    (hi : cs.get? i = some c) (hj : cs2.get? j = some c) :
    b = b2
    ∧ (∀ c0 : Call, (b.stepCall ctx c0).1 = b)
    ∧ (b.runCalls ctx cs).get? i = (b2.runCalls ctx2 cs2).get? j := by
  refine ⟨rfl, fun c0 => BasePlugin.stepCall_fst b ctx c0, ?_⟩
  rw [BasePlugin.runCalls_eq_map, BasePlugin.runCalls_eq_map]
  rw [List.get?_map, List.get?_map, hi, hj]

/-- Witness for C10 at a concrete pair of call sequences: the same
health-check call at position 0 of `[checkHealth]` and position 1 of
`[stop, checkHealth]` returns the same result. -/
theorem basePlugin_stateless_deterministic_witness :
    ((BasePlugin.mk).runCalls {} [.checkHealth {}]).get? 0 =
      ((BasePlugin.mk).runCalls {} [.stop {}, .checkHealth {}]).get? 1 :=
  (basePlugin_stateless_deterministic {} {} {} {} [.checkHealth {}] [.stop {}, .checkHealth {}]
    0 1 (.checkHealth {}) rfl rfl).2.2

/-- FinalResponse: the status code, headers and body the host hands back
to the client once a transaction ends. -/
structure FinalResponse where
  StatusCode : Int
  Headers : List (String × String)
  Body : List Nat
deriving DecidableEq

/-- PhaseResult: the outcome of the request phase — either a
short-circuit with the plugin's verdict, or the working request to send
upstream. -/
inductive PhaseResult where
  | shortCircuit (v : HTTPResponse)
  | proceed (r : HTTPRequest)

/-- Modelled from the spec: the host-side Mediation Pipeline of spec
section 4.3 is not part of this SDK repository (only the plugin side
is), so the request phase is modelled from the spec's words. Each stage
receives the current working payload and returns a Verdict; on
`Continue = false` the phase halts with that verdict; on
`Continue = true` the verdict's headers and body replace the working
payload for the next stage. -/
def runRequestPhase (stages : List (HTTPRequest → HTTPResponse)) (r : HTTPRequest) :
    PhaseResult :=
  match stages with
  | [] => .proceed r
  | p :: rest =>
    let v := p r
    if v.Continue then runRequestPhase rest { Headers := v.Headers, Body := v.Body }
    else .shortCircuit v

/-- Modelled from the spec: the response phase of the host-side
Mediation Pipeline (spec section 4.3), absent from this repository.
Stages run in order on the working response; a `Continue = false`
verdict halts the phase with that verdict as the final response. -/
def runResponsePhase (stages : List (HTTPResponse → HTTPResponse)) (s : HTTPResponse) :
    FinalResponse :=
  match stages with
  | [] => { StatusCode := s.StatusCode, Headers := s.Headers, Body := s.Body }
  | p :: rest =>
    let v := p s
    if v.Continue then
      runResponsePhase rest
        { Continue := true, StatusCode := v.StatusCode, Headers := v.Headers, Body := v.Body }
    else { StatusCode := v.StatusCode, Headers := v.Headers, Body := v.Body }

/-- TransactionResult: the final response of one transaction together
with whether the upstream call was made. -/
structure TransactionResult where
  response : FinalResponse
  upstreamCalled : Bool
deriving DecidableEq

/-- Modelled from the spec: one full transaction of the host-side
Mediation Pipeline (spec section 4.3) — request-phase plugins, then
(absent a short-circuit) the upstream call, then response-phase
plugins. A request-phase short-circuit skips the upstream call and the
response phase entirely. -/
def runTransaction (reqStages : List (HTTPRequest → HTTPResponse))
    (upstream : HTTPRequest → HTTPResponse)
    (respStages : List (HTTPResponse → HTTPResponse))
    (r : HTTPRequest) : TransactionResult :=
  match runRequestPhase reqStages r with
  | .shortCircuit v =>
    { response := { StatusCode := v.StatusCode, Headers := v.Headers, Body := v.Body }
      upstreamCalled := false }
  | .proceed r2 =>
    { response := runResponsePhase respStages (upstream r2), upstreamCalled := true }

/-- Claim C2: request-phase short-circuit correctness. Whenever the
request phase of a transaction halts because some plugin returned a
verdict with `Continue = false`, the upstream call is never made and
the final response equals exactly that verdict's status code, headers
and body. -/
theorem shortCircuit_skips_upstream
    (reqStages : List (HTTPRequest → HTTPResponse))
    (upstream : HTTPRequest → HTTPResponse)
    (respStages : List (HTTPResponse → HTTPResponse))
    (r : HTTPRequest) (v : HTTPResponse)
    (h : runRequestPhase reqStages r = .shortCircuit v) :
    runTransaction reqStages upstream respStages r =
      { response := { StatusCode := v.StatusCode, Headers := v.Headers, Body := v.Body }
        upstreamCalled := false } := by
  unfold runTransaction
  rw [h]

/-- Witness for C2: a single blocking plugin that answers 403 with
`Continue = false` short-circuits a concrete transaction — the upstream
(which would answer 200) is skipped and the 403 verdict is final. -/
theorem shortCircuit_skips_upstream_witness :
    runTransaction
      [fun _ => { Continue := false, StatusCode := 403,
                  Headers := [("X-Blocked", "1")], Body := [110, 111] }]
      (fun _ => { Continue := true, StatusCode := 200, Headers := [], Body := [] })
      [] { Headers := [("a", "1")], Body := [104, 105] } =
      { response := { StatusCode := 403, Headers := [("X-Blocked", "1")], Body := [110, 111] }
        upstreamCalled := false } :=
  shortCircuit_skips_upstream _ _ _ _
    { Continue := false, StatusCode := 403, Headers := [("X-Blocked", "1")], Body := [110, 111] }
    rfl

/-- ServeFlags: the two parsed command-line inputs of `Serve`
(server.go): `--address` (default "") and `--network` (default "unix"). -/
structure ServeFlags where
  address : String
  network : String
deriving DecidableEq

/-- ListenEnv: the environment `Serve` runs against — whether
`net.Listen` succeeds for a given network and address, and whether
`grpcServer.Serve` eventually returns a non-nil error. -/
structure ListenEnv where
  listenOk : String → String → Bool
  serveErr : Bool

/-- ServeTrace: the observable outcome of one `Serve` run — its return
value, whether a listener was created, whether the gRPC server was
started (so calls could be handled), and whether the unix socket path
was removed on return. -/
structure ServeTrace where
  result : Except String Unit
  listenerCreated : Bool
  served : Bool
  socketRemoved : Bool

/-- Serve (server.go): parses flags; an empty address returns an error
before any listener exists; a failed `net.Listen` returns an error; on
a successful bind, a unix-network run defers removal of the socket path
until return, registers the plugin server and serves, wrapping any
serve error. -/
def Serve (flags : ServeFlags) (env : ListenEnv) : ServeTrace :=
  if flags.address = "" then
    { result := .error "--address flag is required"
      listenerCreated := false, served := false, socketRemoved := false }
  else if env.listenOk flags.network flags.address = false then
    { result := .error ("failed to listen on " ++ flags.network ++ " " ++ flags.address)
      listenerCreated := false, served := false, socketRemoved := false }
  else
    { result := if env.serveErr then .error "failed to serve" else .ok ()
      listenerCreated := true
      served := true
      socketRemoved := flags.network == "unix" }

/-- Claim C6: a missing address is a fatal startup error. If the parsed
`--address` flag is empty, `Serve` returns an error before serving —
no listener is created and no call is handled. -/
theorem serve_missing_address_fatal (flags : ServeFlags) (env : ListenEnv)
    (h : flags.address = "") :
    Serve flags env =
      { result := .error "--address flag is required"
        listenerCreated := false, served := false, socketRemoved := false } := by
  unfold Serve
  rw [if_pos h]

/-- Witness for C6 at the concrete empty address with the unix default
network. -/
theorem serve_missing_address_fatal_witness :
    Serve { address := "", network := "unix" } { listenOk := fun _ _ => true, serveErr := false }
      = { result := .error "--address flag is required"
          listenerCreated := false, served := false, socketRemoved := false } :=
  serve_missing_address_fatal { address := "", network := "unix" }
    { listenOk := fun _ _ => true, serveErr := false } rfl

/-- Claim C7: when `Serve` binds a listener in unix network mode, the
socket path is removed by the time `Serve` returns; in tcp mode no
removal ever occurs. -/
theorem serve_unix_socket_removed (flags : ServeFlags) (env : ListenEnv) :
    ((Serve flags env).listenerCreated = true →
      (Serve flags env).socketRemoved = (flags.network == "unix"))
    ∧ (flags.network = "tcp" → (Serve flags env).socketRemoved = false) := by
  unfold Serve
  by_cases ha : flags.address = ""
  · rw [if_pos ha]
    exact ⟨fun h => absurd h (by simp), fun _ => rfl⟩
  · rw [if_neg ha]
    by_cases hl : env.listenOk flags.network flags.address = false
    · rw [if_pos hl]
      exact ⟨fun h => absurd h (by simp), fun _ => rfl⟩
    · rw [if_neg hl]
      refine ⟨fun _ => rfl, fun ht => ?_⟩
      rw [ht]
      rfl

/-- Witness for C7: a unix-mode run that binds removes its socket path;
a tcp-mode run does not. -/
theorem serve_unix_socket_removed_witness :
    (Serve { address := "/tmp/p.sock", network := "unix" }
        { listenOk := fun _ _ => true, serveErr := false }).socketRemoved = ("unix" == "unix")
    ∧ (Serve { address := "127.0.0.1:9000", network := "tcp" }
        { listenOk := fun _ _ => true, serveErr := false }).socketRemoved = false :=
  ⟨(serve_unix_socket_removed { address := "/tmp/p.sock", network := "unix" }
      { listenOk := fun _ _ => true, serveErr := false }).1 (by decide),
   (serve_unix_socket_removed { address := "127.0.0.1:9000", network := "tcp" }
      { listenOk := fun _ _ => true, serveErr := false }).2 rfl⟩

/-- ServerPhase: the serving transport is accepting calls, draining
after a shutdown signal, or stopped. -/
inductive ServerPhase where
  | accepting
  | draining
  | stopped
deriving DecidableEq

/-- ServerState: current phase, number of in-flight calls, and whether
the listening endpoint has been released. -/
structure ServerState where
  phase : ServerPhase
  inflight : Nat
  endpointReleased : Bool
deriving DecidableEq

/-- ServerEvent: a new incoming call, the completion of an in-flight
call, or the interrupt/termination signal that the handler in server.go
forwards to `GracefulStop`. -/
inductive ServerEvent where
  | newCall
  | finishCall
  | signal
deriving DecidableEq

/-- Modelled from the spec: the body of `grpc.Server.GracefulStop`,
which the signal-handling goroutine in server.go invokes, lives in the
external gRPC library and not in this repository, so its transition
behaviour is modelled from the spec's words — on the signal the
transport stops accepting new calls, lets in-flight calls finish, and
releases the listening endpoint once the last one has finished. `none`
means the event is rejected or impossible in that state. -/
def serverStep (s : ServerState) : ServerEvent → Option ServerState
  | .newCall =>
    if s.phase = .accepting then some { s with inflight := s.inflight + 1 } else none
  | .finishCall =>
    match s.phase, s.inflight with
    | .accepting, n + 1 => some { s with inflight := n }
    | .draining, n + 1 =>
      if n = 0 then some { phase := .stopped, inflight := 0, endpointReleased := true }
      else some { phase := .draining, inflight := n, endpointReleased := false }
    | _, _ => none
  | .signal =>
    if s.phase = .accepting then
      if s.inflight = 0 then
        some { phase := .stopped, inflight := 0, endpointReleased := true }
      else some { phase := .draining, inflight := s.inflight, endpointReleased := false }
    else none

/-- Run a sequence of server events from a state, failing if any event
is rejected. -/
def runEvents (s : ServerState) : List ServerEvent → Option ServerState
  | [] => some s
  | e :: es =>
    match serverStep s e with
    | some s2 => runEvents s2 es
    | none => none

theorem runEvents_drain (n : Nat) :
    runEvents { phase := .draining, inflight := n + 1, endpointReleased := false }
      (List.replicate (n + 1) .finishCall) =
      some { phase := .stopped, inflight := 0, endpointReleased := true } := by
  induction n with
  | zero => rfl
  | succ m ih =>
    rw [List.replicate_succ]
    simp only [runEvents, serverStep]
    rw [if_neg (Nat.succ_ne_zero m)]
    exact ih

/-- Claim C8: graceful shutdown. Once the transport has left the
accepting phase (as it does on the interrupt/termination signal), no
new call is ever accepted; in-flight calls are still allowed to finish;
the signal keeps every in-flight call and releases the endpoint at once
only when none is in flight; draining with `n + 1` in-flight calls
reaches the stopped state with the endpoint released after exactly
those calls finish; and no transition releases a still-held endpoint
while a call remains in flight. -/
theorem serve_graceful_shutdown (s : ServerState) :
    (s.phase ≠ .accepting → serverStep s .newCall = none)
    ∧ (s.phase = .draining → s.inflight ≠ 0 → (serverStep s .finishCall).isSome = true)
    ∧ (∀ s2, serverStep s .signal = some s2 →
        s2.phase ≠ .accepting ∧ s2.inflight = s.inflight
          ∧ (s2.endpointReleased = true ↔ s.inflight = 0))
    ∧ (∀ n, runEvents { phase := .draining, inflight := n + 1, endpointReleased := false }
        (List.replicate (n + 1) .finishCall) =
        some { phase := .stopped, inflight := 0, endpointReleased := true })
    ∧ (s.endpointReleased = false →
        ∀ e s2, serverStep s e = some s2 → s2.endpointReleased = true → s2.inflight = 0) := by
  refine ⟨?_, ?_, ?_, fun n => runEvents_drain n, ?_⟩
  · intro h
    simp only [serverStep]
    rw [if_neg h]
  · intro hph hn
    obtain ⟨m, hm⟩ := Nat.exists_eq_succ_of_ne_zero hn
    simp only [serverStep, hph, hm]
    by_cases h0 : m = 0 <;> simp [h0]
  · intro s2 h2
    simp only [serverStep] at h2
    by_cases hph : s.phase = .accepting
    · rw [if_pos hph] at h2
      by_cases h0 : s.inflight = 0
      · rw [if_pos h0] at h2
        cases h2
        exact ⟨by simp, h0.symm, by simp [h0]⟩
      · rw [if_neg h0] at h2
        cases h2
        exact ⟨by simp, rfl, by simp [h0]⟩
    · rw [if_neg hph] at h2
      cases h2
  · intro hfree e s2 h2 hrel
    cases e with
    | newCall =>
      simp only [serverStep] at h2
      split at h2
      · cases h2
        exact absurd hrel (by simp [hfree])
      · exact Option.noConfusion h2
    | finishCall =>
      simp only [serverStep] at h2
      split at h2
      · cases h2
        exact absurd hrel (by simp [hfree])
      · split at h2
        · cases h2
          rfl
        · cases h2
          exact absurd hrel (by simp)
      · exact Option.noConfusion h2
    | signal =>
      simp only [serverStep] at h2
      split at h2
      · split at h2
        · cases h2
          rfl
        · cases h2
          exact absurd hrel (by simp)
      · exact Option.noConfusion h2

/-- Witness for C8 at concrete states: a draining server with one
in-flight call rejects a new call, may finish that call, and reaches
the released stopped state once it finishes; the signal on an accepting
server with one in-flight call leaves the accepting phase keeping that
call without releasing the endpoint; and finishing the last draining
call releases the endpoint with nothing in flight. -/
theorem serve_graceful_shutdown_witness :
    serverStep { phase := .draining, inflight := 1, endpointReleased := false } .newCall = none
    ∧ (serverStep { phase := .draining, inflight := 1, endpointReleased := false }
        .finishCall).isSome = true
    ∧ (({ phase := .draining, inflight := 1, endpointReleased := false } : ServerState).phase
        ≠ ServerPhase.accepting
      ∧ ({ phase := .draining, inflight := 1, endpointReleased := false } : ServerState).inflight
        = ({ phase := .accepting, inflight := 1, endpointReleased := false } : ServerState).inflight
      ∧ (({ phase := .draining, inflight := 1, endpointReleased := false } : ServerState).endpointReleased
          = true
        ↔ ({ phase := .accepting, inflight := 1, endpointReleased := false } : ServerState).inflight
          = 0))
    ∧ runEvents { phase := .draining, inflight := 1, endpointReleased := false }
        (List.replicate 1 .finishCall) =
        some { phase := .stopped, inflight := 0, endpointReleased := true }
    ∧ ({ phase := .stopped, inflight := 0, endpointReleased := true } : ServerState).inflight = 0 := by
  have h := serve_graceful_shutdown { phase := .draining, inflight := 1, endpointReleased := false }
  have ha := serve_graceful_shutdown { phase := .accepting, inflight := 1, endpointReleased := false }
  refine ⟨h.1 (by decide), h.2.1 rfl (by decide), ?_, h.2.2.2.1 0, ?_⟩
  · exact ha.2.2.1 { phase := .draining, inflight := 1, endpointReleased := false } rfl
  · exact h.2.2.2.2 rfl .finishCall
      { phase := .stopped, inflight := 0, endpointReleased := true } rfl rfl

end Mcpd
